import Mathlib

/-!
Shallow embedding of `src/model_api.py` (Agricultural LLM API).

The module keeps two process-wide slots, `_LLM` (an initialized `Llama`
engine handle) and `_MODEL_ERROR` (a load-error string); `load_model`
writes them once at startup, and the three Flask handlers `root`
(`GET /`), `health` (`GET /health`) and `chat` (`POST /chat`) read them.

Modelling choices:
* JSON values are the inductive `Json` (integers only — no request in the
  claims involves floats).
* The inference engine (`Llama.create_chat_completion`) is an opaque
  function from a call record (messages, temperature, max_tokens) to
  either a response value or a raised exception; exceptions are `Exc`
  values carrying `str(e)` and `type(e).__name__`.
* Python operational details that the handler code relies on are embedded
  explicitly: truthiness (`if _MODEL_ERROR:`), `dict.get` with defaults
  (raising AttributeError on non-dicts), subscripting
  (`response["choices"][0]["message"]["content"]`, raising
  KeyError/IndexError/TypeError), `int(...)`, `len(...)`, the slice
  `mensaje[:50]` evaluated inside a print, and `json.dumps` with its
  default separators.
* `request.get_json(force=True)` is supplied by the HTTP layer, so the
  `chat` handler takes its outcome (a parsed value or a raised exception)
  as an argument; `datetime.now().isoformat()` is the argument `now`.
-/

/-- A JSON value as produced by Python's json parsing (numbers restricted
to integers, which covers every request shape the claims mention). -/
inductive Json where
  | null : Json
  | bool : Bool → Json
  | num : Int → Json
  | str : String → Json
  | arr : List Json → Json
  | obj : List (String × Json) → Json
deriving Repr

/-- A raised Python exception: `msg` is `str(e)`, `ty` is `type(e).__name__`. -/
structure Exc where
  msg : String
  ty : String
deriving Repr, DecidableEq

/-- An HTTP response: status code plus JSON body (as built by `jsonify`). -/
structure Resp where
  status : Nat
  body : Json
deriving Repr

/-- Python truthiness of a JSON value (`bool(x)`). -/
def Json.truthy : Json → Bool
  | .null => false
  | .bool b => b
  | .num n => n != 0
  | .str s => s != ""
  | .arr xs => !xs.isEmpty
  | .obj kvs => !kvs.isEmpty

/-- Python type name of a JSON value, as `type(x).__name__` reports it. -/
def Json.typeName : Json → String
  | .null => "NoneType"
  | .bool _ => "bool"
  | .num _ => "int"
  | .str _ => "str"
  | .arr _ => "list"
  | .obj _ => "dict"

/-- Field lookup in a JSON object (used to state properties of response bodies). -/
def Json.getField (j : Json) (k : String) : Option Json :=
  match j with
  | .obj kvs => kvs.lookup k
  | _ => none

/-- `payload.get(k, d)`: returns the stored value (or the default `d`) on a
dict, raises AttributeError on any other value. -/
def dictGet (j : Json) (k : String) (d : Json) : Except Exc Json :=
  match j with
  | .obj kvs => .ok ((kvs.lookup k).getD d)
  | other => .error ⟨other.typeName ++ " object has no attribute get", "AttributeError"⟩

/-- `x[k]` for a string key `k`: dict lookup raising KeyError when absent,
TypeError on values that are not string-subscriptable. -/
def pyIndexStr (j : Json) (k : String) : Except Exc Json :=
  match j with
  | .obj kvs =>
    match kvs.lookup k with
    | some v => .ok v
    | none => .error ⟨k, "KeyError"⟩
  | other => .error ⟨other.typeName ++ " indices must not be str", "TypeError"⟩

/-- `x[i]` for a nonnegative integer index: list indexing raising IndexError
when out of range, TypeError on non-subscriptable values. -/
def pyIndexNat (j : Json) (i : Nat) : Except Exc Json :=
  match j with
  | .arr xs =>
    match xs.get? i with
    | some v => .ok v
    | none => .error ⟨"list index out of range", "IndexError"⟩
  | .str s =>
    match s.toList.get? i with
    | some c => .ok (.str (String.singleton c))
    | none => .error ⟨"string index out of range", "IndexError"⟩
  | other => .error ⟨other.typeName ++ " object is not subscriptable", "TypeError"⟩

/-- `int(x)`: identity on ints, 0/1 on bools, base-10 parse of strings
(ValueError when unparseable), TypeError otherwise. -/
def pyInt (j : Json) : Except Exc Int :=
  match j with
  | .num n => .ok n
  | .bool b => .ok (if b then 1 else 0)
  | .str s =>
    match s.trim.toInt? with
    | some n => .ok n
    | none => .error ⟨"invalid literal for int with base 10: " ++ s, "ValueError"⟩
  | other => .error ⟨"int argument must not be " ++ other.typeName, "TypeError"⟩

/-- The slice `x[:50]` evaluated inside the `print` f-string: succeeds on
strings and lists, raises TypeError on everything else. -/
def pySlice50 : Json → Except Exc Unit
  | .str _ => .ok ()
  | .arr _ => .ok ()
  | .obj _ => .error ⟨"unhashable type: slice", "TypeError"⟩
  | other => .error ⟨other.typeName ++ " object is not subscriptable", "TypeError"⟩

/-- `len(x)`: defined on strings, lists and dicts, TypeError otherwise
(evaluated inside the success-path `print`). -/
def pyLen : Json → Except Exc Nat
  | .str s => .ok s.length
  | .arr xs => .ok xs.length
  | .obj kvs => .ok kvs.length
  | other => .error ⟨other.typeName ++ " has no len", "TypeError"⟩

/-- JSON string escaping as `json.dumps` performs it (`ensure_ascii=False`:
non-ASCII characters pass through unescaped). -/
def jsonEscapeChar (c : Char) : String :=
  if c = '\\' then "\\\\"
  else if c = '"' then "\\\""
  else if c = '\n' then "\\n"
  else if c = '\t' then "\\t"
  else if c = '\r' then "\\r"
  else if c = '\x08' then "\\b"
  else if c = '\x0c' then "\\f"
  else if c.toNat < 32 then
    "\\u00" ++ String.singleton (Nat.digitChar (c.toNat / 16)) ++
      String.singleton (Nat.digitChar (c.toNat % 16))
  else String.singleton c

/-- Escape every character of a string for JSON output. -/
def jsonEscape (s : String) : String :=
  String.join (s.toList.map jsonEscapeChar)

mutual

/-- `json.dumps(x, ensure_ascii=False)` with the library's default
separators `", "` and `": "`. -/
def Json.dumps : Json → String
  | .null => "null"
  | .bool true => "true"
  | .bool false => "false"
  | .num n => toString n
  | .str s => "\"" ++ jsonEscape s ++ "\""
  | .arr xs => "[" ++ dumpsList xs ++ "]"
  | .obj kvs => "\x7b" ++ dumpsObj kvs ++ "\x7d"

/-- Comma-separated serialization of a JSON array's elements. -/
def dumpsList : List Json → String
  | [] => ""
  | [x] => Json.dumps x
  | x :: xs => Json.dumps x ++ ", " ++ dumpsList xs

/-- Comma-separated serialization of a JSON object's entries. -/
def dumpsObj : List (String × Json) → String
  | [] => ""
  | [(k, v)] => "\"" ++ jsonEscape k ++ "\": " ++ Json.dumps v
  | (k, v) :: kvs => "\"" ++ jsonEscape k ++ "\": " ++ Json.dumps v ++ ", " ++ dumpsObj kvs

end

/-- One chat-completion invocation of the engine:
`_LLM.create_chat_completion(messages=..., temperature=..., max_tokens=...)`.
Messages are the Python dicts `{"role": ..., "content": ...}`. -/
structure EngineCall where
  messages : List Json
  temperature : ℚ
  max_tokens : Int

/-- The opaque inference engine: a chat-completion call either returns a
response value or raises. -/
abbrev Engine := EngineCall → Except Exc Json

/-- The process-wide state: the globals `_LLM` and `_MODEL_ERROR` of
`model_api.py` (both initially `None`). -/
structure S where
  llm : Option Engine
  modelError : Option String

/-- Python truthiness of the `_MODEL_ERROR` slot (`if _MODEL_ERROR:`):
`None` and the empty string are falsy. -/
def pyTruthyStr (o : Option String) : Bool :=
  match o with
  | none => false
  | some s => s != ""

/-- The environment `load_model` runs in: the resolved `MODEL_PATH`, whether
a file exists there, and the outcome of `Llama(...)` initialization (either
an engine handle or the raised exception's `str(e)`). -/
structure World where
  modelPath : String
  fileExists : Bool
  init : Except String Engine

/-- The error message recorded when the model file is missing. -/
def fileNotFoundMsg (p : String) : String :=
  "❌ ERROR: Modelo NO encontrado en: " ++ p

/-- The error message recorded when `Llama(...)` raises with message `e`. -/
def initFailMsg (e : String) : String :=
  "❌ ERROR cargando modelo: " ++ e

/-- `load_model()`: starting from the initial state (both globals `None`),
check file existence, then attempt engine initialization; record exactly
one of handle/error. Returns the new state with the function's boolean
result. -/
def load_model (w : World) : S × Bool :=
  if !w.fileExists then
    (⟨none, some (fileNotFoundMsg w.modelPath)⟩, false)
  else
    match w.init with
    | .ok eng => (⟨some eng, none⟩, true)
    | .error e => (⟨none, some (initFailMsg e)⟩, false)

/-- `GET /` (`root`): service info, degraded form when `_MODEL_ERROR` is
truthy. `mp` is the module constant `MODEL_PATH`. -/
def root (mp : String) (st : S) : Resp :=
  if pyTruthyStr st.modelError then
    ⟨500, .obj [("service", .str "Agricultural LLM API"),
                ("status", .str "error"),
                ("error", .str (st.modelError.getD "")),
                ("model_loaded", .bool false)]⟩
  else
    ⟨200, .obj [("service", .str "Agricultural LLM API"),
                ("version", .str "1.0.0"),
                ("status", .str "ready"),
                ("model_loaded", .bool st.llm.isSome),
                ("model_path", .str mp),
                ("endpoints", .obj [("health", .str "/health"),
                                    ("chat", .str "/chat (POST)")])]⟩

/-- `GET /health`: ok with timestamp when no truthy error is recorded,
degraded 500 otherwise. -/
def health (mp : String) (now : String) (st : S) : Resp :=
  if pyTruthyStr st.modelError then
    ⟨500, .obj [("status", .str "error"),
                ("error", .str (st.modelError.getD "")),
                ("model_loaded", .bool false)]⟩
  else
    ⟨200, .obj [("status", .str "ok"),
                ("timestamp", .str now),
                ("model_loaded", .bool st.llm.isSome),
                ("model_path", .str mp)]⟩

/-- The default system prompt of the `chat` handler. -/
def defaultSystem : String := "Eres un asistente agrónomo."

/-- One message dict `{"role": role, "content": content}`. -/
def mkMessage (role : String) (content : Json) : Json :=
  .obj [("role", .str role), ("content", content)]

/-- `response["choices"][0]["message"]["content"] or ""`: extract the first
completion's content, replacing a falsy value by the empty string; any
shape mismatch raises. -/
def extractContent (response : Json) : Except Exc Json := do
  let choices ← pyIndexStr response "choices"
  let first ← pyIndexNat choices 0
  let message ← pyIndexStr first "message"
  let content ← pyIndexStr message "content"
  return (if content.truthy then content else .str "")

/-- The `try:` block of the `chat` handler: parse the payload, apply the
defaults, build the two messages, call the engine, extract the content.
`getJson` is the outcome of `request.get_json(force=True)`. -/
def chatTry (eng : Engine) (getJson : Except Exc Json) (now : String) :
    Except Exc Resp := do
  let payload ← getJson
  let system_prompt ← dictGet payload "system" (.str defaultSystem)
  let context ← dictGet payload "context" (.obj [])
  let max_tokens ← pyInt (← dictGet payload "max_tokens" (.num 300))
  let mensaje ← dictGet context "mensaje" (.str "")
  let _ ← pySlice50 mensaje
  let messages := [mkMessage "system" system_prompt,
                   mkMessage "user" (.str (Json.dumps context))]
  let response ← eng ⟨messages, (0.2 : ℚ), max_tokens⟩
  let content ← extractContent response
  let _ ← pyLen content
  return ⟨200, .obj [("content", content), ("timestamp", .str now)]⟩

/-- The `except Exception` branch of the `chat` handler. -/
def processError (e : Exc) : Resp :=
  ⟨500, .obj [("error", .str ("Error procesando request: " ++ e.msg)),
              ("type", .str e.ty)]⟩

/-- `POST /chat`: the availability checks followed by the guarded try block. -/
def chat (st : S) (getJson : Except Exc Json) (now : String) : Resp :=
  if pyTruthyStr st.modelError then
    ⟨503, .obj [("error", .str "Model not available"),
                ("details", .str (st.modelError.getD ""))]⟩
  else
    match st.llm with
    | none =>
      ⟨503, .obj [("error", .str "Model not loaded"),
                  ("details", .str "LLM instance is None")]⟩
    | some eng =>
      match chatTry eng getJson now with
      | .ok r => r
      | .error e => processError e

/-! ### Helper lemmas -/

/-- A string with a nonempty left part is nonempty. -/
theorem append_ne_empty (a b : String) (ha : a.length ≠ 0) : a ++ b ≠ "" := by
  intro h
  have hl := congrArg String.length h
  rw [String.length_append] at hl
  have : ("" : String).length = 0 := rfl
  omega

/-- The file-missing load error is a truthy string. -/
theorem fileNotFoundMsg_truthy (p : String) :
    pyTruthyStr (some (fileNotFoundMsg p)) = true := by
  simp only [pyTruthyStr, bne_iff_ne, ne_eq]
  exact append_ne_empty _ _ (by decide)

/-- The initialization-failure load error is a truthy string. -/
theorem initFailMsg_truthy (e : String) :
    pyTruthyStr (some (initFailMsg e)) = true := by
  simp only [pyTruthyStr, bne_iff_ne, ne_eq]
  exact append_ne_empty _ _ (by decide)

/-! ### Claim C5 -/

/-- Claim C5: after `load_model` has run, in each of its three outcomes
(file missing, initialization exception, success), exactly one of the
model handle and the load error is set — never both and never neither. -/
theorem c5_exactly_one_of_handle_error (w : World) :
    (((load_model w).1.llm.isSome = true ∧ (load_model w).1.modelError = none)
      ∨ ((load_model w).1.llm = none ∧ ((load_model w).1.modelError).isSome = true)) := by
  cases hf : w.fileExists with
  | false => right; simp [load_model, hf]
  | true =>
    cases hi : w.init with
    | ok eng => left; simp [load_model, hf, hi]
    | error e => right; simp [load_model, hf, hi]

/-! ### Claim C9 -/

/-- Claim C9: when the resolved model file path does not exist, `load_model`
records an error message containing the attempted path, leaves the handle
unset, and never consults the engine-initialization outcome (no
initialization attempt). -/
theorem c9_file_missing (w : World) (h : w.fileExists = false) :
    (load_model w).1.modelError = some (fileNotFoundMsg w.modelPath)
    ∧ (∃ pre, fileNotFoundMsg w.modelPath = pre ++ w.modelPath)
    ∧ (load_model w).1.llm = none
    ∧ (∀ i : Except String Engine, load_model ⟨w.modelPath, w.fileExists, i⟩ = load_model w) := by
  refine ⟨?_, ⟨"❌ ERROR: Modelo NO encontrado en: ", rfl⟩, ?_, ?_⟩ <;>
    simp [load_model, h]

/-- Witness for C9 at a concrete world with a missing file. -/
theorem c9_file_missing_witness :
    (load_model ⟨"/m.gguf", false, .error "x"⟩).1.modelError
        = some (fileNotFoundMsg "/m.gguf")
    ∧ (∃ pre, fileNotFoundMsg "/m.gguf" = pre ++ "/m.gguf")
    ∧ (load_model ⟨"/m.gguf", false, .error "x"⟩).1.llm = none
    ∧ (∀ i : Except String Engine,
        load_model ⟨"/m.gguf", false, i⟩ = load_model ⟨"/m.gguf", false, .error "x"⟩) :=
  c9_file_missing ⟨"/m.gguf", false, .error "x"⟩ rfl

/-! ### Claim C1 -/

/-- Claim C1: in any post-`load_model` state with a recorded load error,
`POST /chat` answers 503 with body `error: Model not available` and the
original recorded load-error text in `details`, uniformly in the request
body and timestamp (so no request parsing and no engine invocation can
influence the response — the error state holds no engine at all). -/
theorem c1_chat_unavailable (w : World) (s : String)
    (h : (load_model w).1.modelError = some s) :
    ∀ (getJson : Except Exc Json) (now : String),
      chat (load_model w).1 getJson now
        = ⟨503, .obj [("error", .str "Model not available"), ("details", .str s)]⟩ := by
  intro getJson now
  cases hf : w.fileExists with
  | false =>
    simp only [load_model, hf, Bool.not_false, if_pos, Option.some.injEq] at h ⊢
    subst h
    simp [chat, fileNotFoundMsg_truthy]
  | true =>
    cases hi : w.init with
    | ok eng => simp [load_model, hf, hi] at h
    | error e =>
      simp only [load_model, hf, hi, Bool.not_true, Bool.false_eq_true, if_false,
        Option.some.injEq] at h ⊢
      subst h
      simp [chat, initFailMsg_truthy]

/-- Witness for C1: a world whose model file is missing. -/
theorem c1_chat_unavailable_witness :
    chat (load_model ⟨"/m.gguf", false, .error "x"⟩).1 (.ok (.obj [])) "t"
      = ⟨503, .obj [("error", .str "Model not available"),
                    ("details", .str (fileNotFoundMsg "/m.gguf"))]⟩ :=
  c1_chat_unavailable ⟨"/m.gguf", false, .error "x"⟩ (fileNotFoundMsg "/m.gguf") rfl
    (.ok (.obj [])) "t"

/-! ### Claim C7 -/

/-- Claim C7: in the state with no recorded load error and no model handle,
`POST /chat` answers 503 with the internal-inconsistency body, uniformly in
the request body and timestamp (before any parsing), and that body's
`error` field differs from the model-unavailable condition's. -/
theorem c7_chat_inconsistency (st : S)
    (herr : st.modelError = none) (hllm : st.llm = none) :
    ∀ (getJson : Except Exc Json) (now : String),
      chat st getJson now
        = ⟨503, .obj [("error", .str "Model not loaded"),
                      ("details", .str "LLM instance is None")]⟩
      ∧ (chat st getJson now).body.getField "error"
          ≠ some (.str "Model not available") := by
  intro getJson now
  have h : chat st getJson now
      = ⟨503, .obj [("error", .str "Model not loaded"),
                    ("details", .str "LLM instance is None")]⟩ := by
    simp [chat, herr, hllm, pyTruthyStr]
  refine ⟨h, ?_⟩
  rw [h]
  simp [Json.getField, List.lookup]

/-- Witness for C7 at the concrete neither-set state. -/
theorem c7_chat_inconsistency_witness :
    chat ⟨none, none⟩ (.ok (.obj [])) "t"
      = ⟨503, .obj [("error", .str "Model not loaded"),
                    ("details", .str "LLM instance is None")]⟩
    ∧ (chat ⟨none, none⟩ (.ok (.obj [])) "t").body.getField "error"
        ≠ some (.str "Model not available") :=
  c7_chat_inconsistency ⟨none, none⟩ rfl rfl (.ok (.obj [])) "t"

/-! ### Claim C2 -/

/-- Claim C2 counterexample: in the state where neither an error nor a
handle is set, `GET /` and `GET /health` answer HTTP 200 but report
`model_loaded: false`, not `model_loaded: true` as the claim states. -/
theorem c2_counterexample :
    (root "/m.gguf" ⟨none, none⟩).status = 200
    ∧ (root "/m.gguf" ⟨none, none⟩).body.getField "model_loaded"
        = some (.bool false)
    ∧ (health "/m.gguf" "t" ⟨none, none⟩).status = 200
    ∧ (health "/m.gguf" "t" ⟨none, none⟩).body.getField "model_loaded"
        = some (.bool false) :=
  ⟨rfl, rfl, rfl, rfl⟩

/-- Claim C2 (amended): `GET /` and `GET /health` answer 500 with
`model_loaded: false` exactly when a truthy load error is recorded, and
otherwise answer 200 with `model_loaded` equal to whether the handle is
set — in particular `model_loaded: false` with 200 in the state where
neither the error nor the handle is set. -/
theorem c2_model_loaded_reporting (mp now : String) (st : S) :
    (root mp st).status = (if pyTruthyStr st.modelError then 500 else 200)
    ∧ (root mp st).body.getField "model_loaded"
        = some (.bool (if pyTruthyStr st.modelError then false else st.llm.isSome))
    ∧ (health mp now st).status = (if pyTruthyStr st.modelError then 500 else 200)
    ∧ (health mp now st).body.getField "model_loaded"
        = some (.bool (if pyTruthyStr st.modelError then false else st.llm.isSome)) := by
  cases h : pyTruthyStr st.modelError <;>
    simp [root, health, h, Json.getField, List.lookup]

/-! ### Claim C10 -/

/-- Claim C10: with the handle set and no error recorded, a request body
that fails JSON parsing (the forced `get_json` raises) yields the generic
processing-error response: HTTP 500 with `error` carrying the exception's
message and `type` naming its class — not 400 and not a defaulted
success. -/
theorem c10_unparseable_body (st : S) (eng : Engine) (now : String) (e : Exc)
    (herr : st.modelError = none) (hllm : st.llm = some eng) :
    chat st (.error e) now
      = ⟨500, .obj [("error", .str ("Error procesando request: " ++ e.msg)),
                    ("type", .str e.ty)]⟩
    ∧ (chat st (.error e) now).status ≠ 400
    ∧ (chat st (.error e) now).status ≠ 200 := by
  have hct : chatTry eng (.error e) now = .error e := rfl
  have h : chat st (.error e) now
      = ⟨500, .obj [("error", .str ("Error procesando request: " ++ e.msg)),
                    ("type", .str e.ty)]⟩ := by
    simp [chat, herr, hllm, pyTruthyStr, hct, processError]
  refine ⟨h, ?_, ?_⟩ <;> rw [h] <;> simp

/-- Witness for C10: a concrete parse failure (as raised on an empty or
malformed body) against a loaded model. -/
theorem c10_unparseable_body_witness :
    chat ⟨some (fun _ => .ok .null), none⟩
        (.error ⟨"400 Bad Request: invalid JSON", "BadRequest"⟩) "t"
      = ⟨500, .obj [("error",
                     .str "Error procesando request: 400 Bad Request: invalid JSON"),
                    ("type", .str "BadRequest")]⟩
    ∧ (chat ⟨some (fun _ => .ok .null), none⟩
        (.error ⟨"400 Bad Request: invalid JSON", "BadRequest"⟩) "t").status ≠ 400
    ∧ (chat ⟨some (fun _ => .ok .null), none⟩
        (.error ⟨"400 Bad Request: invalid JSON", "BadRequest"⟩) "t").status ≠ 200 :=
  c10_unparseable_body ⟨some (fun _ => .ok .null), none⟩ (fun _ => .ok .null) "t"
    ⟨"400 Bad Request: invalid JSON", "BadRequest"⟩ rfl rfl

/-! ### The engine phase of the chat handler -/

/-- What the chat handler does with the outcome of the engine invocation:
extract the first completion's content, measure it for the log line, and
build the 200 response — with any raised exception mapped by the
`except Exception` branch. -/
def afterEngine (res : Except Exc Json) (now : String) : Resp :=
  match (do
      let response ← res
      let content ← extractContent response
      let _ ← pyLen content
      pure (⟨200, .obj [("content", content),
                        ("timestamp", .str now)]⟩ : Resp) : Except Exc Resp) with
  | .ok r => r
  | .error e => processError e

/-- With the handle set, no recorded error, and every pre-engine step of the
try block succeeding, the chat response is exactly the post-processing of
one engine invocation carrying the two constructed messages, temperature
0.2 and the parsed `max_tokens`. -/
theorem chat_engine_phase (st : S) (eng : Engine)
    (payload sys ctx mt0 men : Json) (mt : Int) (now : String)
    (herr : st.modelError = none) (hllm : st.llm = some eng)
    (hs : dictGet payload "system" (.str defaultSystem) = .ok sys)
    (hc : dictGet payload "context" (.obj []) = .ok ctx)
    (hm : dictGet payload "max_tokens" (.num 300) = .ok mt0)
    (hi : pyInt mt0 = .ok mt)
    (hmen : dictGet ctx "mensaje" (.str "") = .ok men)
    (hsl : pySlice50 men = .ok ()) :
    chat st (.ok payload) now
      = afterEngine
          (eng ⟨[mkMessage "system" sys, mkMessage "user" (.str (Json.dumps ctx))],
                (0.2 : ℚ), mt⟩) now := by
  have hct : chatTry eng (.ok payload) now
      = (do
          let response ← eng ⟨[mkMessage "system" sys,
                               mkMessage "user" (.str (Json.dumps ctx))], (0.2 : ℚ), mt⟩
          let content ← extractContent response
          let _ ← pyLen content
          pure (⟨200, .obj [("content", content),
                            ("timestamp", .str now)]⟩ : Resp)) := by
    simp [chatTry, hs, hc, hm, hi, hmen, hsl, bind, Except.bind]
  rw [chat]
  simp only [herr, hllm, pyTruthyStr, hct, afterEngine]
  cases eng ⟨[mkMessage "system" sys, mkMessage "user" (.str (Json.dumps ctx))],
             (0.2 : ℚ), mt⟩ <;> simp [bind, Except.bind]

/-- A stubbed engine response: one completion whose message content is the
fixed string "Riega el cultivo cada 3 días." -/
def stubResponse : Json :=
  .obj [("choices",
    .arr [.obj [("message",
      .obj [("content", .str "Riega el cultivo cada 3 días.")])]])]

/-- A stubbed engine returning `stubResponse` on every call. -/
def stubEngine : Engine := fun _ => .ok stubResponse

/-! ### Claim C8 -/

/-- Claim C8: every chat request that reaches the engine invokes it with
exactly two messages — a system message carrying `system_prompt` and a user
message carrying the JSON serialization of the `context` mapping — at the
fixed temperature 0.2 and the requested `max_tokens`; the response is fully
determined by post-processing that one call. -/
theorem c8_engine_invocation (st : S) (eng : Engine)
    (payload sys ctx mt0 men : Json) (mt : Int) (now : String)
    (herr : st.modelError = none) (hllm : st.llm = some eng)
    (hs : dictGet payload "system" (.str defaultSystem) = .ok sys)
    (hc : dictGet payload "context" (.obj []) = .ok ctx)
    (hm : dictGet payload "max_tokens" (.num 300) = .ok mt0)
    (hi : pyInt mt0 = .ok mt)
    (hmen : dictGet ctx "mensaje" (.str "") = .ok men)
    (hsl : pySlice50 men = .ok ()) :
    chat st (.ok payload) now
      = afterEngine
          (eng ⟨[mkMessage "system" sys, mkMessage "user" (.str (Json.dumps ctx))],
                (0.2 : ℚ), mt⟩) now :=
  chat_engine_phase st eng payload sys ctx mt0 men mt now herr hllm hs hc hm hi hmen hsl

/-- Witness for C8: a request fixing `max_tokens` to 50 against the stubbed
engine reaches it with the two constructed messages. -/
theorem c8_engine_invocation_witness :
    chat ⟨some stubEngine, none⟩
        (.ok (.obj [("context", .obj [("mensaje", .str "hola")]),
                    ("max_tokens", .num 50)])) "t"
      = afterEngine
          (stubEngine ⟨[mkMessage "system" (.str defaultSystem),
                        mkMessage "user"
                          (.str (Json.dumps (.obj [("mensaje", .str "hola")])))],
                       (0.2 : ℚ), 50⟩) "t" :=
  c8_engine_invocation ⟨some stubEngine, none⟩ stubEngine
    (.obj [("context", .obj [("mensaje", .str "hola")]), ("max_tokens", .num 50)])
    (.str defaultSystem) (.obj [("mensaje", .str "hola")]) (.num 50) (.str "hola") 50 "t"
    rfl rfl rfl rfl rfl rfl rfl rfl

/-! ### Claim C3 -/

/-- Claim C3: a chat request whose JSON object body omits `system`,
`context` and `max_tokens` is processed with the defaults
"Eres un asistente agrónomo.", the empty mapping and 300 — the engine is
invoked at exactly those defaults — and, when that call returns a
completion with string content, the request succeeds with HTTP 200. -/
theorem c3_defaults (st : S) (eng : Engine) (kvs : List (String × Json))
    (now : String) (r : Json) (t : String)
    (herr : st.modelError = none) (hllm : st.llm = some eng)
    (hs : kvs.lookup "system" = none)
    (hc : kvs.lookup "context" = none)
    (hm : kvs.lookup "max_tokens" = none)
    (heng : eng ⟨[mkMessage "system" (.str defaultSystem),
                  mkMessage "user" (.str (Json.dumps (.obj [])))],
                 (0.2 : ℚ), 300⟩ = .ok r)
    (hex : extractContent r = .ok (.str t)) :
    chat st (.ok (.obj kvs)) now
      = ⟨200, .obj [("content", .str t), ("timestamp", .str now)]⟩ := by
  have h := chat_engine_phase st eng (.obj kvs) (.str defaultSystem) (.obj [])
    (.num 300) (.str "") 300 now herr hllm
    (by simp [dictGet, hs]) (by simp [dictGet, hc]) (by simp [dictGet, hm])
    rfl rfl rfl
  rw [h, heng]
  simp [afterEngine, hex, bind, Except.bind, pure, Except.pure, pyLen,
    Functor.map, Except.map]

/-- Witness for C3: the empty object body against the stubbed engine. -/
theorem c3_defaults_witness :
    chat ⟨some (fun c =>
        if c.max_tokens = 300 then .ok stubResponse else .error ⟨"bad", "AssertionError"⟩),
      none⟩ (.ok (.obj [])) "t"
      = ⟨200, .obj [("content", .str "Riega el cultivo cada 3 días."),
                    ("timestamp", .str "t")]⟩ :=
  c3_defaults
    ⟨some (fun c =>
        if c.max_tokens = 300 then .ok stubResponse else .error ⟨"bad", "AssertionError"⟩),
      none⟩
    (fun c =>
        if c.max_tokens = 300 then .ok stubResponse else .error ⟨"bad", "AssertionError"⟩)
    [] "t" stubResponse "Riega el cultivo cada 3 días."
    rfl rfl rfl rfl rfl rfl rfl

/-! ### Claim C4 -/

/-- Claim C4: with the handle set and no recorded error, any exception
raised inside the try block (parsing, engine invocation or content
extraction) yields HTTP 500 with `error` carrying the exception's message
and `type` naming its class; the handler stays a total function of the
unchanged state, so a subsequent request whose try block succeeds is served
its normal 200 response. -/
theorem c4_processing_error (st : S) (eng : Engine)
    (getJson : Except Exc Json) (now : String) (e : Exc)
    (herr : st.modelError = none) (hllm : st.llm = some eng)
    (h : chatTry eng getJson now = .error e) :
    chat st getJson now
      = ⟨500, .obj [("error", .str ("Error procesando request: " ++ e.msg)),
                    ("type", .str e.ty)]⟩
    ∧ (∀ (getJson2 : Except Exc Json) (now2 : String) (r : Resp),
        chatTry eng getJson2 now2 = .ok r → chat st getJson2 now2 = r) := by
  constructor
  · simp [chat, herr, hllm, pyTruthyStr, h, processError]
  · intro g n r hr
    simp [chat, herr, hllm, pyTruthyStr, hr]

/-- Witness for C4: an engine that raises on every call; the first request
gets the 500 mapping and a second request against a succeeding try block is
served normally. -/
theorem c4_processing_error_witness :
    chat ⟨some (fun _ => .error ⟨"boom", "RuntimeError"⟩), none⟩ (.ok (.obj [])) "t"
      = ⟨500, .obj [("error", .str "Error procesando request: boom"),
                    ("type", .str "RuntimeError")]⟩ :=
  (c4_processing_error ⟨some (fun _ => .error ⟨"boom", "RuntimeError"⟩), none⟩
    (fun _ => .error ⟨"boom", "RuntimeError"⟩) (.ok (.obj [])) "t"
    ⟨"boom", "RuntimeError"⟩ rfl rfl rfl).1

/-! ### Claim C6 -/

/-- Claim C6 counterexample: when the first completion's message lacks the
`content` key entirely (content absent), the handler does not substitute
the empty string — the KeyError lands in the processing-error branch and
the response is HTTP 500, not a 200 with empty content. -/
theorem c6_counterexample :
    (chat ⟨some (fun _ => .ok (.obj [("choices", .arr [.obj [("message", .obj [])]])])),
        none⟩ (.ok (.obj [])) "t").status = 500
    ∧ (chat ⟨some (fun _ => .ok (.obj [("choices", .arr [.obj [("message", .obj [])]])])),
        none⟩ (.ok (.obj [])) "t").body.getField "type" = some (.str "KeyError")
    ∧ (chat ⟨some (fun _ => .ok (.obj [("choices", .arr [.obj [("message", .obj [])]])])),
        none⟩ (.ok (.obj [])) "t").body.getField "content" = none :=
  ⟨rfl, rfl, rfl⟩

/-- Claim C6 (amended): on the chat success path the handler extracts the
first completion's `content` value; a null content is replaced by the empty
string, a string content is returned as is, and the result is returned in
the `content` field together with the timestamp. (An absent `content` key
instead raises KeyError and is answered by the 500 processing-error
branch.) -/
theorem c6_content_extraction (st : S) (eng : Engine)
    (payload sys ctx mt0 men : Json) (mt : Int) (now : String)
    (r ch fst msg v : Json)
    (herr : st.modelError = none) (hllm : st.llm = some eng)
    (hs : dictGet payload "system" (.str defaultSystem) = .ok sys)
    (hc : dictGet payload "context" (.obj []) = .ok ctx)
    (hm : dictGet payload "max_tokens" (.num 300) = .ok mt0)
    (hi : pyInt mt0 = .ok mt)
    (hmen : dictGet ctx "mensaje" (.str "") = .ok men)
    (hsl : pySlice50 men = .ok ())
    (heng : eng ⟨[mkMessage "system" sys, mkMessage "user" (.str (Json.dumps ctx))],
                 (0.2 : ℚ), mt⟩ = .ok r)
    (hch : pyIndexStr r "choices" = .ok ch)
    (h0 : pyIndexNat ch 0 = .ok fst)
    (hmsg : pyIndexStr fst "message" = .ok msg)
    (hv : pyIndexStr msg "content" = .ok v)
    (hnull : v = .null ∨ ∃ s, v = .str s) :
    chat st (.ok payload) now
      = ⟨200, .obj [("content", .str (match v with | .str s => s | _ => "")),
                    ("timestamp", .str now)]⟩ := by
  have h := chat_engine_phase st eng payload sys ctx mt0 men mt now
    herr hllm hs hc hm hi hmen hsl
  rw [h, heng]
  have hext : extractContent r = .ok (if v.truthy then v else .str "") := by
    simp [extractContent, hch, h0, hmsg, hv, bind, Except.bind, pure, Except.pure]
  rcases hnull with rfl | ⟨s, rfl⟩
  · simp [afterEngine, hext, bind, Except.bind, pure, Except.pure, pyLen,
      Json.truthy, Functor.map, Except.map]
  · by_cases hse : s = ""
    · subst hse
      simp [afterEngine, hext, bind, Except.bind, pure, Except.pure, pyLen,
        Json.truthy, Functor.map, Except.map]
    · simp [afterEngine, hext, bind, Except.bind, pure, Except.pure, pyLen,
        Json.truthy, hse, Functor.map, Except.map]

/-- Witness for C6 (amended): a completion whose content is null yields the
empty string in the 200 response. -/
theorem c6_content_extraction_witness :
    chat ⟨some (fun _ => .ok (.obj [("choices",
        .arr [.obj [("message", .obj [("content", .null)])]])])), none⟩
      (.ok (.obj [])) "t"
      = ⟨200, .obj [("content", .str ""), ("timestamp", .str "t")]⟩ :=
  c6_content_extraction
    ⟨some (fun _ => .ok (.obj [("choices",
        .arr [.obj [("message", .obj [("content", .null)])]])])), none⟩
    (fun _ => .ok (.obj [("choices",
        .arr [.obj [("message", .obj [("content", .null)])]])]))
    (.obj []) (.str defaultSystem) (.obj []) (.num 300) (.str "") 300 "t"
    (.obj [("choices", .arr [.obj [("message", .obj [("content", .null)])]])])
    (.arr [.obj [("message", .obj [("content", .null)])]])
    (.obj [("message", .obj [("content", .null)])])
    (.obj [("content", .null)]) .null
    rfl rfl rfl rfl rfl rfl rfl rfl rfl rfl rfl rfl rfl (.inl rfl)
